import Mathlib

/-!
Verification of the acquisition-orchestration layer of the Pharmyrus
multi-layer patent crawler.

The development shallowly embeds, in Lean, the Python classes

  * `app/crawlers/base_crawler.py`   — `BaseCrawler` (circuit breaker + metrics),
  * `app/crawlers/crawler_manager.py`— `CrawlerManager` (fallback chains,
    multi-query search, strategies, cleanup),
  * `app/services/v6_layered_orchestrator.py` — run-level pipeline
    (merge/deduplication phase, cleanup guarantee),
  * `api_deploy.py`                  — the admin reset endpoint,

and proves the testable properties of the spec about these definitions.
Python floats used for timestamps and response times are modelled as
rationals; machine-level float rounding plays no role in any claim.
-/

namespace Pharmyrus

/-- `CrawlerStatus` enum of `base_crawler.py`. -/
inductive CrawlerStatus where
  | READY
  | RUNNING
  | CIRCUIT_OPEN
  | FAILED
deriving DecidableEq, Repr

/-- `CrawlerLayer` enum of `base_crawler.py` (values 1, 2, 3). -/
inductive CrawlerLayer where
  | PLAYWRIGHT
  | HTTPX
  | SELENIUM
deriving DecidableEq, Repr

/-- The `self.metrics` dict initialised in `BaseCrawler.__init__`. -/
structure Metrics where
  total_requests : Nat
  successful_requests : Nat
  failed_requests : Nat
  blocked_requests : Nat
  total_time : ℚ
  avg_response_time : ℚ
deriving DecidableEq, Repr

/-- Mutable state of a `BaseCrawler` instance: circuit-breaker fields,
metrics dict and the rolling response-time sample window. -/
structure BaseCrawlerState where
  name : String
  layer : CrawlerLayer
  status : CrawlerStatus
  consecutive_failures : Nat
  max_failures : Nat
  circuit_open_until : ℚ
  circuit_cooldown : ℚ
  metrics : Metrics
  request_times : List ℚ
  max_request_time_samples : Nat
deriving Repr

/-- `BaseCrawler.__init__(name, layer)`. -/
def initBaseCrawler (name : String) (layer : CrawlerLayer) : BaseCrawlerState :=
  { name := name
    layer := layer
    status := CrawlerStatus.READY
    consecutive_failures := 0
    max_failures := 3
    circuit_open_until := 0
    circuit_cooldown := 300
    metrics :=
      { total_requests := 0
        successful_requests := 0
        failed_requests := 0
        blocked_requests := 0
        total_time := 0
        avg_response_time := 0 }
    request_times := []
    max_request_time_samples := 100 }

/-- `BaseCrawler.is_available(self)`.  `now` stands for `time.time()`.
Returns the boolean result together with the (possibly mutated) state:
when the cooldown has elapsed and the circuit was open, the method
performs the half-open probe (status back to READY, failure counter
zeroed) before answering. -/
def is_available (now : ℚ) (s : BaseCrawlerState) : Bool × BaseCrawlerState :=
  if now < s.circuit_open_until then
    (false, s)
  else
    let s' :=
      if s.status = CrawlerStatus.CIRCUIT_OPEN then
        { s with status := CrawlerStatus.READY, consecutive_failures := 0 }
      else s
    (decide (s'.status ≠ CrawlerStatus.FAILED), s')

/-- `BaseCrawler.record_success(self, response_time)`. -/
def record_success (s : BaseCrawlerState) (response_time : ℚ) : BaseCrawlerState :=
  let m := s.metrics
  let m := { m with
    total_requests := m.total_requests + 1
    successful_requests := m.successful_requests + 1
    total_time := m.total_time + response_time }
  let times := s.request_times ++ [response_time]
  let times :=
    if s.max_request_time_samples < times.length then times.drop 1 else times
  let m := { m with avg_response_time := times.sum / (times.length : ℚ) }
  { s with
    metrics := m
    request_times := times
    consecutive_failures := 0
    status := CrawlerStatus.READY }

/-- `BaseCrawler.open_circuit(self)`.  `now` stands for `time.time()`. -/
def open_circuit (now : ℚ) (s : BaseCrawlerState) : BaseCrawlerState :=
  { s with
    circuit_open_until := now + s.circuit_cooldown
    status := CrawlerStatus.CIRCUIT_OPEN }

/-- `BaseCrawler.record_failure(self, is_block)`. -/
def record_failure (s : BaseCrawlerState) (is_block : Bool) (now : ℚ) :
    BaseCrawlerState :=
  let m := s.metrics
  let m := { m with
    total_requests := m.total_requests + 1
    failed_requests := m.failed_requests + 1 }
  let m :=
    if is_block then { m with blocked_requests := m.blocked_requests + 1 } else m
  let s := { s with metrics := m, consecutive_failures := s.consecutive_failures + 1 }
  if s.max_failures ≤ s.consecutive_failures then open_circuit now s else s

/-- `BaseCrawler.get_success_rate(self)`: percentage of successful requests. -/
def get_success_rate (s : BaseCrawlerState) : ℚ :=
  if s.metrics.total_requests = 0 then 0
  else ((s.metrics.successful_requests : ℚ) / (s.metrics.total_requests : ℚ)) * 100

/-! ## CrawlerManager (`app/crawlers/crawler_manager.py`) -/

/-- `TargetSite` enum of `crawler_manager.py`. -/
inductive TargetSite where
  | GOOGLE_PATENTS
  | WIPO
  | INPI
deriving DecidableEq, Repr

instance : Fintype TargetSite :=
  ⟨⟨{TargetSite.GOOGLE_PATENTS, TargetSite.WIPO, TargetSite.INPI}, by decide⟩,
    by intro x; cases x <;> decide⟩

/-- The `self.strategies` dict literal of `CrawlerManager.__init__`,
kept as the key/value list it is written as. -/
def strategiesTable : List (TargetSite × List CrawlerLayer) :=
  [ (TargetSite.GOOGLE_PATENTS,
      [CrawlerLayer.PLAYWRIGHT, CrawlerLayer.SELENIUM, CrawlerLayer.HTTPX]),
    (TargetSite.WIPO,
      [CrawlerLayer.HTTPX, CrawlerLayer.PLAYWRIGHT, CrawlerLayer.SELENIUM]),
    (TargetSite.INPI,
      [CrawlerLayer.HTTPX, CrawlerLayer.PLAYWRIGHT, CrawlerLayer.SELENIUM]) ]

/-- `self.strategies[target]` — dict lookup on the strategies table. -/
def strategies (target : TargetSite) : List CrawlerLayer :=
  (strategiesTable.lookup target).getD []

/-- A Python dict is a sequence of key/value pairs; `d.get(k, 0) + 1`
followed by `d[k] = _` updates the value in place if the key exists and
appends the key otherwise. -/
def bumpCount (l : List (String × Nat)) (k : String) : List (String × Nat) :=
  match l with
  | [] => [(k, 1)]
  | (k', n) :: rest =>
    if k' = k then (k', n + 1) :: rest else (k', n) :: bumpCount rest k

/-- Manager-level cumulative counters of `CrawlerManager.__init__`. -/
structure ManagerCounters where
  total_requests : Nat
  total_successes : Nat
  total_failures : Nat
  layer_usage : List (String × Nat)
  layer_successes : List (String × Nat)
deriving DecidableEq, Repr

def initManagerCounters : ManagerCounters :=
  { total_requests := 0
    total_successes := 0
    total_failures := 0
    layer_usage := []
    layer_successes := [] }

/-- A Python dict value returned by `get_patent_details`; only its
truthiness (`if details:`) matters to the manager, so the dict is kept
as its key/value list. -/
def PatentDetails := List (String × String)
deriving DecidableEq, Repr

/-- Python truthiness of an `Optional[Dict]`: `None` and the empty dict
are falsy. -/
def detailsTruthy : Option PatentDetails → Bool
  | none => false
  | some d => !d.isEmpty

/-- Observable behaviour of one crawler as seen by the manager during a
single fallback pass: `available` is the boolean outcome of
`is_available()` (the state machine behind it is `is_available` above),
and each operation either raises (`Except.error`, carrying the message)
or returns its Python value. -/
structure CrawlerBehavior where
  name : String
  available : Bool
  search : String → Except String (List String)
  details : String → Except String (Option PatentDetails)
  brPatents : String → Except String (List String)

/-- One fallback pass of `CrawlerManager.search_wo_numbers` over the
remaining strategy suffix.  Returns the `(wo_numbers, layer_used)` pair,
the list of crawler names actually invoked (in invocation order; skipped
crawlers do not appear), and the updated manager counters. -/
def searchWoGo (crawlers : CrawlerLayer → CrawlerBehavior) (query : String) :
    List CrawlerLayer → ManagerCounters →
    (List String × String) × List String × ManagerCounters
  | [], mc =>
    (([], "none"), [], { mc with total_failures := mc.total_failures + 1 })
  | layer :: rest, mc =>
    let c := crawlers layer
    if !c.available then
      searchWoGo crawlers query rest mc
    else
      let mc := { mc with
        total_requests := mc.total_requests + 1
        layer_usage := bumpCount mc.layer_usage c.name }
      match c.search query with
      | Except.error _ =>
        let r := searchWoGo crawlers query rest mc
        (r.1, c.name :: r.2.1, r.2.2)
      | Except.ok wo_numbers =>
        if wo_numbers.isEmpty then
          let r := searchWoGo crawlers query rest mc
          (r.1, c.name :: r.2.1, r.2.2)
        else
          ((wo_numbers, c.name), [c.name],
            { mc with
              total_successes := mc.total_successes + 1
              layer_successes := bumpCount mc.layer_successes c.name })

/-- `CrawlerManager.search_wo_numbers(query, target, max_results)`. -/
def search_wo_numbers (crawlers : CrawlerLayer → CrawlerBehavior) (query : String)
    (target : TargetSite) (mc : ManagerCounters) :
    (List String × String) × List String × ManagerCounters :=
  searchWoGo crawlers query (strategies target) mc

/-- One fallback pass of `CrawlerManager.get_patent_details`; unlike the
WO search, neither `total_requests` nor `total_failures` is touched. -/
def getDetailsGo (crawlers : CrawlerLayer → CrawlerBehavior) (wo : String) :
    List CrawlerLayer → ManagerCounters →
    (Option PatentDetails × String) × List String × ManagerCounters
  | [], mc => ((none, "none"), [], mc)
  | layer :: rest, mc =>
    let c := crawlers layer
    if !c.available then
      getDetailsGo crawlers wo rest mc
    else
      let mc := { mc with layer_usage := bumpCount mc.layer_usage c.name }
      match c.details wo with
      | Except.error _ =>
        let r := getDetailsGo crawlers wo rest mc
        (r.1, c.name :: r.2.1, r.2.2)
      | Except.ok details =>
        if detailsTruthy details then
          ((details, c.name), [c.name],
            { mc with layer_successes := bumpCount mc.layer_successes c.name })
        else
          let r := getDetailsGo crawlers wo rest mc
          (r.1, c.name :: r.2.1, r.2.2)

/-- `CrawlerManager.get_patent_details(wo_number, target)`. -/
def get_patent_details (crawlers : CrawlerLayer → CrawlerBehavior) (wo : String)
    (target : TargetSite) (mc : ManagerCounters) :
    (Option PatentDetails × String) × List String × ManagerCounters :=
  getDetailsGo crawlers wo (strategies target) mc

/-- One fallback pass of `CrawlerManager.get_br_patents_from_wo`; like
the details fetch it leaves `total_requests`/`total_failures` alone. -/
def getBrGo (crawlers : CrawlerLayer → CrawlerBehavior) (wo : String) :
    List CrawlerLayer → ManagerCounters →
    (List String × String) × List String × ManagerCounters
  | [], mc => (([], "none"), [], mc)
  | layer :: rest, mc =>
    let c := crawlers layer
    if !c.available then
      getBrGo crawlers wo rest mc
    else
      let mc := { mc with layer_usage := bumpCount mc.layer_usage c.name }
      match c.brPatents wo with
      | Except.error _ =>
        let r := getBrGo crawlers wo rest mc
        (r.1, c.name :: r.2.1, r.2.2)
      | Except.ok br_patents =>
        if br_patents.isEmpty then
          let r := getBrGo crawlers wo rest mc
          (r.1, c.name :: r.2.1, r.2.2)
        else
          ((br_patents, c.name), [c.name],
            { mc with layer_successes := bumpCount mc.layer_successes c.name })

/-- `CrawlerManager.get_br_patents_from_wo(wo_number, target)`. -/
def get_br_patents_from_wo (crawlers : CrawlerLayer → CrawlerBehavior) (wo : String)
    (target : TargetSite) (mc : ManagerCounters) :
    (List String × String) × List String × ManagerCounters :=
  getBrGo crawlers wo (strategies target) mc

/-- The query loop of `CrawlerManager.search_wo_numbers_multi_query`:
`all_wo_numbers` is the accumulating Python `set`, `layer_usage_count`
the per-layer histogram dict. -/
def multiQueryGo (crawlers : CrawlerLayer → CrawlerBehavior) (target : TargetSite) :
    List String → Finset String → List (String × Nat) → ManagerCounters →
    Finset String × List (String × Nat) × ManagerCounters
  | [], acc, usage, mc => (acc, usage, mc)
  | q :: rest, acc, usage, mc =>
    let r := search_wo_numbers crawlers q target mc
    multiQueryGo crawlers target rest (acc ∪ r.1.1.toFinset)
      (bumpCount usage r.1.2) r.2.2

/-- `CrawlerManager.search_wo_numbers_multi_query(queries, target, n)`:
runs the queries sequentially, accumulates the WO numbers into a set,
and returns `sorted(list(all_wo_numbers))` with the usage histogram. -/
def search_wo_numbers_multi_query (crawlers : CrawlerLayer → CrawlerBehavior)
    (queries : List String) (target : TargetSite) (mc : ManagerCounters) :
    List String × List (String × Nat) × ManagerCounters :=
  let r := multiQueryGo crawlers target queries ∅ [] mc
  (r.1.sort (· ≤ ·), r.2.1, r.2.2)

/-! ## V6LayeredOrchestrator (`app/services/v6_layered_orchestrator.py`) -/

/-- A BR-patent record dict as built by the layered orchestrator.
`_convert_wo_to_br` builds dicts with keys number, source_wo, source,
layer; `_search_inpi_direct` builds dicts with keys number, source,
layer (no source_wo key).  Keys that a construction site may leave out are
`Option`s; no construction site in `v6_layered_orchestrator.py` ever
sets a score key, so `score` is `none` in every record the pipeline
builds. -/
structure BRPatent where
  number : String
  source_wo : Option String
  source : String
  layer : String
  score : Option Int
deriving DecidableEq, Repr

/-- Record appended by `_convert_wo_to_br` for one BR patent found in a
WO family. -/
def mkWoFamilyPatent (br_patent wo_number layer_used : String) : BRPatent :=
  { number := br_patent
    source_wo := some wo_number
    source := "wo_family"
    layer := layer_used
    score := none }

/-- Record appended by `_search_inpi_direct` (source is
`"inpi_molecule"` or `"inpi_brand"`). -/
def mkInpiPatent (number source : String) : BRPatent :=
  { number := number
    source_wo := none
    source := source
    layer := "inpi_api"
    score := none }

/-- The normalisation applied inside `_deduplicate_br_patents`:
`upper()` on the number, then removal of every space and every hyphen
(replacing a one-character pattern by the empty string is exactly
filtering that character out of the character sequence). -/
def normalize_patent_number (s : String) : String :=
  String.mk (((s.data.map Char.toUpper).filter (fun c => c ≠ ' ')).filter
    (fun c => c ≠ '-'))

/-- The loop body of `_deduplicate_br_patents`: walk the concatenated
record list, keeping a record when its normalised number has not been
seen yet. -/
def dedupGo : List BRPatent → List String → List BRPatent
  | [], _ => []
  | p :: rest, seen =>
    let pn := normalize_patent_number p.number
    if pn ∈ seen then dedupGo rest seen
    else p :: dedupGo rest (pn :: seen)

/-- `V6LayeredOrchestrator._deduplicate_br_patents(wo_br, inpi_br)`. -/
def deduplicate_br_patents (wo_br_patents inpi_br_patents : List BRPatent) :
    List BRPatent :=
  dedupGo (wo_br_patents ++ inpi_br_patents) []

/-- `V6LayeredOrchestrator._count_by_source(br_patents)`: histogram of
the source field. -/
def count_by_source (br_patents : List BRPatent) : List (String × Nat) :=
  br_patents.foldl (fun counts p => bumpCount counts p.source) []

/-! ### Run-level cleanup (`search` + `CrawlerManager.cleanup_all`) -/

/-- A crawler as seen by the cleanup path: its name and whether its
`cleanup()` coroutine raises. -/
structure CleanupCrawler where
  name : String
  cleanupResult : Except String Unit

/-- `CrawlerManager.cleanup_all`: iterate over all crawlers and await
the `cleanup()` of each inside a `try`/`except` that logs and continues.
Returns the names of the crawlers whose `cleanup()` was invoked, in
order, together with the logged cleanup errors. -/
def cleanup_all (crawlers : List CleanupCrawler) : List String × List String :=
  crawlers.foldl
    (fun acc c =>
      match c.cleanupResult with
      | Except.ok _ => (acc.1 ++ [c.name], acc.2)
      | Except.error e => (acc.1 ++ [c.name], acc.2 ++ [c.name ++ ": " ++ e]))
    ([], [])

/-- Outcome of one `V6LayeredOrchestrator.search` run: either the
results dict of a completed run (its `br_patents` list), or the results
dict with its error field set after a phase raised. -/
inductive RunResult where
  | completed : List BRPatent → RunResult
  | failed : String → RunResult
deriving DecidableEq, Repr

/-- The `try`/`except`/`finally` skeleton of `V6LayeredOrchestrator.search`:
`phases` is the combined outcome of the `try` block (phases 1–5), the
`except Exception` arm turns a raised phase exception into a returned
results dict with the error field set, and the `finally` arm always
runs `cleanup_all` on the crawlers of the manager.  Returns the result and
the cleanup invocation log. -/
def searchRun (phases : Except String (List BRPatent))
    (crawlers : List CleanupCrawler) : RunResult × List String :=
  let body :=
    match phases with
    | Except.ok br => RunResult.completed br
    | Except.error e => RunResult.failed e
  (body, (cleanup_all crawlers).1)

/-! ## Admin reset endpoint (`api_deploy.py`) -/

/-- The attribute names assigned on `self` in `CrawlerManager.__init__`
(`crawler_manager.py`): the crawlers live in the `crawlers` dict keyed
by layer — there is no `playwright_crawler` / `httpx_crawler` /
`selenium_crawler` attribute. -/
def crawlerManagerAttrs : List String :=
  ["crawlers", "strategies", "total_requests", "total_successes",
   "total_failures", "layer_usage", "layer_successes"]

/-- The three per-layer crawler states owned (via the `crawlers` dict)
by one `CrawlerManager`, plus the manager counters. -/
structure FullManager where
  playwright : BaseCrawlerState
  httpx : BaseCrawlerState
  selenium : BaseCrawlerState
  counters : ManagerCounters

/-- Python attribute access `getattr(manager, attr)`: raises
`AttributeError` when the attribute was never assigned. -/
def managerGetAttr (attr : String) : Except String Unit :=
  if attr ∈ crawlerManagerAttrs then Except.ok ()
  else Except.error ("AttributeError: CrawlerManager object has no attribute " ++ attr)

/-- `reset_circuit_breakers` of `api_deploy.py`: building the list
`[manager.playwright_crawler, manager.httpx_crawler, manager.selenium_crawler]`
evaluates three attribute accesses; a raised `AttributeError` is caught
by the `except Exception` of the endpoint and converted into an HTTP-500
response, leaving the manager untouched.  (Even if the attributes
existed, hasattr for a circuit_breaker attribute is false for every
`BaseCrawler`, so the body would reset nothing.) -/
def reset_circuit_breakers (m : FullManager) : Except String String × FullManager :=
  match managerGetAttr "playwright_crawler" with
  | Except.error e => (Except.error e, m)
  | Except.ok _ =>
    match managerGetAttr "httpx_crawler" with
    | Except.error e => (Except.error e, m)
    | Except.ok _ =>
      match managerGetAttr "selenium_crawler" with
      | Except.error e => (Except.error e, m)
      | Except.ok _ => (Except.ok "All circuit breakers reset", m)

/-! ## Event traces over one `BaseCrawler` (for the metrics invariants) -/

/-- One recorded outcome on a crawler: `record_success(response_time)`
or `record_failure(is_block)` happening at time `now`. -/
inductive CrawlerEvent where
  | success (response_time : ℚ)
  | failure (is_block : Bool) (now : ℚ)

/-- Apply one recorded outcome to the crawler state. -/
def applyEvent (s : BaseCrawlerState) : CrawlerEvent → BaseCrawlerState
  | CrawlerEvent.success rt => record_success s rt
  | CrawlerEvent.failure b now => record_failure s b now

/-- Apply a sequence of recorded outcomes in order. -/
def applyEvents (s : BaseCrawlerState) (es : List CrawlerEvent) : BaseCrawlerState :=
  es.foldl applyEvent s

/-! ## Specification-side description of the fallback walk

`firstAvailableNonEmpty` states the first-success-wins contract the
fallback loop is supposed to satisfy: the result of the first available
crawler, in chain order, whose search returns (rather than raises) a
non-empty list — `none` when no crawler does. -/

def firstAvailableNonEmpty (crawlers : CrawlerLayer → CrawlerBehavior)
    (query : String) : List CrawlerLayer → Option (List String × String)
  | [] => none
  | layer :: rest =>
    let c := crawlers layer
    if !c.available then firstAvailableNonEmpty crawlers query rest
    else
      match c.search query with
      | Except.error _ => firstAvailableNonEmpty crawlers query rest
      | Except.ok wo_numbers =>
        if wo_numbers.isEmpty then firstAvailableNonEmpty crawlers query rest
        else some (wo_numbers, c.name)

/-- First-success contract of the detail-fetch fallback: the first
available crawler, in chain order, whose `get_patent_details` returns
(rather than raises) a truthy dict wins. -/
def firstAvailableTruthyDetails (crawlers : CrawlerLayer → CrawlerBehavior)
    (wo : String) : List CrawlerLayer → Option (Option PatentDetails × String)
  | [] => none
  | layer :: rest =>
    let c := crawlers layer
    if !c.available then firstAvailableTruthyDetails crawlers wo rest
    else
      match c.details wo with
      | Except.error _ => firstAvailableTruthyDetails crawlers wo rest
      | Except.ok details =>
        if detailsTruthy details then some (details, c.name)
        else firstAvailableTruthyDetails crawlers wo rest

/-- First-success contract of the family-expansion fallback: the first
available crawler, in chain order, whose `get_br_patents_from_wo`
returns (rather than raises) a non-empty list wins. -/
def firstAvailableNonEmptyBr (crawlers : CrawlerLayer → CrawlerBehavior)
    (wo : String) : List CrawlerLayer → Option (List String × String)
  | [] => none
  | layer :: rest =>
    let c := crawlers layer
    if !c.available then firstAvailableNonEmptyBr crawlers wo rest
    else
      match c.brPatents wo with
      | Except.error _ => firstAvailableNonEmptyBr crawlers wo rest
      | Except.ok br_patents =>
        if br_patents.isEmpty then firstAvailableNonEmptyBr crawlers wo rest
        else some (br_patents, c.name)

/-- Boolean form of "this crawler yields nothing for this query":
its `search_patents` raises or returns the empty list. -/
def searchYieldsNothing (c : CrawlerBehavior) (query : String) : Bool :=
  match c.search query with
  | Except.error _ => true
  | Except.ok wo_numbers => wo_numbers.isEmpty

/-- Boolean form of "this crawler yields nothing for this WO number":
its `get_patent_details` raises or returns a falsy value. -/
def detailsYieldNothing (c : CrawlerBehavior) (wo : String) : Bool :=
  match c.details wo with
  | Except.error _ => true
  | Except.ok details => !detailsTruthy details

/-- Boolean form of "this crawler yields no BR family members":
its `get_br_patents_from_wo` raises or returns the empty list. -/
def brYieldsNothing (c : CrawlerBehavior) (wo : String) : Bool :=
  match c.brPatents wo with
  | Except.error _ => true
  | Except.ok br_patents => br_patents.isEmpty

/-! ## Concrete instances used by witnesses and counterexamples -/

/-- A Playwright crawler after exactly two recorded failures. -/
def crawlerAtTwoFailures : BaseCrawlerState :=
  { initBaseCrawler "Playwright" CrawlerLayer.PLAYWRIGHT with
      consecutive_failures := 2 }

/-- A Playwright crawler whose circuit opened at time 1000 (cooldown
300, so the circuit is open until 1300). -/
def crawlerCircuitOpened : BaseCrawlerState :=
  open_circuit 1000
    { initBaseCrawler "Playwright" CrawlerLayer.PLAYWRIGHT with
        consecutive_failures := 3 }

/-- Backend A of the spec scenario: available, every operation raises. -/
def crawlerA : CrawlerBehavior :=
  { name := "A"
    available := true
    search := fun _ => Except.error "TimeoutError"
    details := fun _ => Except.error "TimeoutError"
    brPatents := fun _ => Except.error "TimeoutError" }

/-- Backend B of the spec scenario: available, returns empty results. -/
def crawlerB : CrawlerBehavior :=
  { name := "B"
    available := true
    search := fun _ => Except.ok []
    details := fun _ => Except.ok none
    brPatents := fun _ => Except.ok [] }

/-- Backend C of the spec scenario: available, search finds x1 and x2. -/
def crawlerC : CrawlerBehavior :=
  { name := "C"
    available := true
    search := fun _ => Except.ok ["x1", "x2"]
    details := fun _ => Except.ok (some [("title", "t")])
    brPatents := fun _ => Except.ok ["BR1"] }

/-- Layer assignment realising the strategy `[A, B, C]`. -/
def chainABC : CrawlerLayer → CrawlerBehavior
  | CrawlerLayer.PLAYWRIGHT => crawlerA
  | CrawlerLayer.HTTPX => crawlerB
  | CrawlerLayer.SELENIUM => crawlerC

/-- An unavailable crawler (circuit open), for the all-skipped scenario. -/
def unavailableCrawler (n : String) : CrawlerBehavior :=
  { name := n
    available := false
    search := fun _ => Except.ok []
    details := fun _ => Except.ok none
    brPatents := fun _ => Except.ok [] }

/-- All three layers down. -/
def chainAllDown : CrawlerLayer → CrawlerBehavior
  | CrawlerLayer.PLAYWRIGHT => unavailableCrawler "Playwright"
  | CrawlerLayer.HTTPX => unavailableCrawler "HTTPX"
  | CrawlerLayer.SELENIUM => unavailableCrawler "Selenium"

/-- A crawler returning two identifiers that differ only by a hyphen,
i.e. are equal after `_deduplicate_br_patents`-style normalisation. -/
def crawlerNearDuplicates : CrawlerBehavior :=
  { name := "Playwright"
    available := true
    search := fun _ => Except.ok ["WO-123", "WO123"]
    details := fun _ => Except.ok none
    brPatents := fun _ => Except.ok [] }

/-- Every layer behaves like `crawlerNearDuplicates`. -/
def chainNearDuplicates : CrawlerLayer → CrawlerBehavior :=
  fun _ => crawlerNearDuplicates

/-- The three crawlers of one run, the first of which raises during its
`cleanup()`. -/
def cleanupCrawlersOneRaises : List CleanupCrawler :=
  [ { name := "Playwright", cleanupResult := Except.error "browser already closed" },
    { name := "HTTPX", cleanupResult := Except.ok () },
    { name := "Selenium", cleanupResult := Except.ok () } ]

/-- The same three crawlers with every `cleanup()` succeeding. -/
def cleanupCrawlersAllOk : List CleanupCrawler :=
  [ { name := "Playwright", cleanupResult := Except.ok () },
    { name := "HTTPX", cleanupResult := Except.ok () },
    { name := "Selenium", cleanupResult := Except.ok () } ]

/-- A manager whose Playwright layer sits at three consecutive failures
with its circuit open until time 1300. -/
def managerWithOpenCircuit : FullManager :=
  { playwright := crawlerCircuitOpened
    httpx := initBaseCrawler "HTTPX" CrawlerLayer.HTTPX
    selenium := initBaseCrawler "Selenium" CrawlerLayer.SELENIUM
    counters := initManagerCounters }

/-- Number of success events in a trace. -/
def countSuccess : List CrawlerEvent → Nat
  | [] => 0
  | CrawlerEvent.success _ :: es => countSuccess es + 1
  | CrawlerEvent.failure _ _ :: es => countSuccess es

/-- Number of failure events in a trace. -/
def countFailure : List CrawlerEvent → Nat
  | [] => 0
  | CrawlerEvent.success _ :: es => countFailure es
  | CrawlerEvent.failure _ _ :: es => countFailure es + 1

/-- Reading a counter back out of a histogram dict: `d.get(k, 0)`. -/
def lookupCount (l : List (String × Nat)) (k : String) : Nat :=
  (l.lookup k).getD 0

/-! ## Theorems -/

/-- The metrics dict after `record_failure`: total and failed go up by
one, successful is untouched, blocked goes up only for a block. -/
theorem record_failure_metrics (s : BaseCrawlerState) (b : Bool) (now : ℚ) :
    (record_failure s b now).metrics.total_requests = s.metrics.total_requests + 1
    ∧ (record_failure s b now).metrics.successful_requests = s.metrics.successful_requests
    ∧ (record_failure s b now).metrics.failed_requests = s.metrics.failed_requests + 1
    ∧ (record_failure s b now).metrics.blocked_requests
        = s.metrics.blocked_requests + (if b then 1 else 0) := by
  refine ⟨?_, ?_, ?_, ?_⟩ <;>
    · simp only [record_failure, open_circuit]
      cases b <;> split <;> rfl

/-- Counter bookkeeping of a whole trace, from an arbitrary start
state. -/
theorem applyEvents_counters (es : List CrawlerEvent) :
    ∀ s : BaseCrawlerState,
      (applyEvents s es).metrics.total_requests
        = s.metrics.total_requests + countSuccess es + countFailure es
      ∧ (applyEvents s es).metrics.successful_requests
        = s.metrics.successful_requests + countSuccess es
      ∧ (applyEvents s es).metrics.failed_requests
        = s.metrics.failed_requests + countFailure es := by
  induction es with
  | nil =>
    intro s
    simp [applyEvents, countSuccess, countFailure]
  | cons e rest ih =>
    intro s
    have hstep := ih (applyEvent s e)
    have happ : applyEvents s (e :: rest) = applyEvents (applyEvent s e) rest := by
      simp [applyEvents]
    cases e with
    | success rt =>
      have h1 : (applyEvent s (CrawlerEvent.success rt)).metrics.total_requests
          = s.metrics.total_requests + 1 := rfl
      have h2 : (applyEvent s (CrawlerEvent.success rt)).metrics.successful_requests
          = s.metrics.successful_requests + 1 := rfl
      have h3 : (applyEvent s (CrawlerEvent.success rt)).metrics.failed_requests
          = s.metrics.failed_requests := rfl
      refine ⟨?_, ?_, ?_⟩ <;>
        · rw [happ]
          simp only [hstep.1, hstep.2.1, hstep.2.2, h1, h2, h3,
            countSuccess, countFailure]
          try omega
    | failure b now =>
      have hf := record_failure_metrics s b now
      simp only [applyEvent] at hstep
      refine ⟨?_, ?_, ?_⟩ <;>
        · rw [happ]
          simp only [applyEvent, hstep.1, hstep.2.1, hstep.2.2, hf.1, hf.2.1,
            hf.2.2.1, countSuccess, countFailure]
          try omega

/-- Claim C1: each recorded failure increments `consecutive_failures` by
exactly 1 and each recorded success resets it to 0; from any state below
the threshold of 3 whose circuit is not already open, the status becomes
CIRCUIT_OPEN — with `circuit_open_until` set to now + cooldown — exactly
when the counter first reaches 3, and never at any smaller value. -/
theorem claim_circuit_breaker_monotonicity
    (s : BaseCrawlerState) (is_block : Bool) (now rt : ℚ)
    (hthr : s.max_failures = 3)
    (hcf : s.consecutive_failures < 3)
    (hst : s.status ≠ CrawlerStatus.CIRCUIT_OPEN) :
    (record_failure s is_block now).consecutive_failures = s.consecutive_failures + 1
    ∧ (record_success s rt).consecutive_failures = 0
    ∧ ((record_failure s is_block now).status = CrawlerStatus.CIRCUIT_OPEN
        ↔ s.consecutive_failures + 1 = 3)
    ∧ (s.consecutive_failures + 1 = 3 →
        (record_failure s is_block now).circuit_open_until = now + s.circuit_cooldown) := by
  have hcond : (s.max_failures ≤ s.consecutive_failures + 1)
      ↔ s.consecutive_failures + 1 = 3 := by
    rw [hthr]; omega
  refine ⟨?_, rfl, ?_, ?_⟩
  · simp only [record_failure, open_circuit]
    split <;> rfl
  · simp only [record_failure, open_circuit]
    split
    · next h => simpa using hcond.mp h
    · next h =>
      have : ¬ s.consecutive_failures + 1 = 3 := fun he => h (hcond.mpr he)
      simpa [this] using hst
  · intro h3
    have hc : s.max_failures ≤ s.consecutive_failures + 1 := hcond.mpr h3
    simp only [record_failure, open_circuit]
    rw [if_pos hc]

/-- Witness for C1 at a crawler with two recorded failures. -/
theorem claim_circuit_breaker_monotonicity_witness :
    crawlerAtTwoFailures.max_failures = 3
    ∧ crawlerAtTwoFailures.consecutive_failures < 3
    ∧ crawlerAtTwoFailures.status ≠ CrawlerStatus.CIRCUIT_OPEN
    ∧ ((record_failure crawlerAtTwoFailures true 50).consecutive_failures =
          crawlerAtTwoFailures.consecutive_failures + 1
      ∧ (record_success crawlerAtTwoFailures 1).consecutive_failures = 0
      ∧ ((record_failure crawlerAtTwoFailures true 50).status = CrawlerStatus.CIRCUIT_OPEN
          ↔ crawlerAtTwoFailures.consecutive_failures + 1 = 3)
      ∧ (crawlerAtTwoFailures.consecutive_failures + 1 = 3 →
          (record_failure crawlerAtTwoFailures true 50).circuit_open_until =
            50 + crawlerAtTwoFailures.circuit_cooldown)) :=
  ⟨rfl, by decide, by decide,
    claim_circuit_breaker_monotonicity crawlerAtTwoFailures true 50 1 rfl
      (by decide) (by decide)⟩

/-- Claim C4: once the circuit is open, the availability check returns
false at every time strictly before `circuit_open_until` (leaving the
state untouched), and the first check at or after `circuit_open_until`
returns true, moves the status back to READY and zeroes the failure
counter (half-open probe). -/
theorem claim_cooldown_recovery (s : BaseCrawlerState) (now : ℚ)
    (hopen : s.status = CrawlerStatus.CIRCUIT_OPEN) :
    (now < s.circuit_open_until → is_available now s = (false, s))
    ∧ (s.circuit_open_until ≤ now →
        (is_available now s).1 = true
        ∧ (is_available now s).2.status = CrawlerStatus.READY
        ∧ (is_available now s).2.consecutive_failures = 0) := by
  constructor
  · intro h
    simp [is_available, h]
  · intro h
    have h' : ¬ now < s.circuit_open_until := not_lt.mpr h
    refine ⟨?_, ?_, ?_⟩ <;> simp [is_available, h', hopen]

/-- Witness for C4 at the crawler whose circuit opened at time 1000,
checked at time 1300 (the end of the cooldown). -/
theorem claim_cooldown_recovery_witness :
    crawlerCircuitOpened.status = CrawlerStatus.CIRCUIT_OPEN
    ∧ ((1300 < crawlerCircuitOpened.circuit_open_until →
          is_available 1300 crawlerCircuitOpened = (false, crawlerCircuitOpened))
      ∧ (crawlerCircuitOpened.circuit_open_until ≤ 1300 →
          (is_available 1300 crawlerCircuitOpened).1 = true
          ∧ (is_available 1300 crawlerCircuitOpened).2.status = CrawlerStatus.READY
          ∧ (is_available 1300 crawlerCircuitOpened).2.consecutive_failures = 0)) :=
  ⟨rfl, claim_cooldown_recovery crawlerCircuitOpened 1300 rfl⟩

/-- Claim C10: the strategies dict has an entry for every `TargetSite`
value, and every configured strategy is a permutation of the three
crawler layers, so strategy resolution never fails at request time. -/
theorem claim_strategy_table_total :
    (∀ target : TargetSite, (strategiesTable.lookup target).isSome = true)
    ∧ (∀ target : TargetSite,
        (strategies target).Perm
          [CrawlerLayer.PLAYWRIGHT, CrawlerLayer.HTTPX, CrawlerLayer.SELENIUM]) := by
  constructor <;> intro t <;> cases t <;> decide

/-- Claim C9 (code bug): the admin reset endpoint reads the attributes
`playwright_crawler` / `httpx_crawler` / `selenium_crawler`, none of
which `CrawlerManager.__init__` defines, so the very first access raises
`AttributeError`; the endpoint catches it and answers HTTP 500, and no
circuit-breaker state is reset — here the Playwright layer still has
3 consecutive failures and an open circuit afterwards. -/
theorem claim_reset_circuit_breakers_bug :
    reset_circuit_breakers managerWithOpenCircuit =
      (Except.error
          "AttributeError: CrawlerManager object has no attribute playwright_crawler",
        managerWithOpenCircuit)
    ∧ (reset_circuit_breakers managerWithOpenCircuit).2.playwright.consecutive_failures = 3
    ∧ (reset_circuit_breakers managerWithOpenCircuit).2.playwright.status =
        CrawlerStatus.CIRCUIT_OPEN :=
  ⟨rfl, rfl, rfl⟩

/-- Claim C6 (amended): after any sequence of recorded successes and
failures, `total_requests = successful_requests + failed_requests`
(indeed total counts every event, successful the successes and failed
the failures), every counter is monotone non-decreasing under each
recording step, and the computed success rate is the *percentage*
`100 * successful / total`, with value 0 when `total_requests` is 0. -/
theorem claim_metrics_consistency (name : String) (layer : CrawlerLayer)
    (es : List CrawlerEvent) :
    (applyEvents (initBaseCrawler name layer) es).metrics.total_requests
        = (applyEvents (initBaseCrawler name layer) es).metrics.successful_requests
          + (applyEvents (initBaseCrawler name layer) es).metrics.failed_requests
    ∧ (applyEvents (initBaseCrawler name layer) es).metrics.successful_requests
        = countSuccess es
    ∧ (applyEvents (initBaseCrawler name layer) es).metrics.failed_requests
        = countFailure es
    ∧ (∀ t : BaseCrawlerState, ∀ e : CrawlerEvent,
        t.metrics.total_requests ≤ (applyEvent t e).metrics.total_requests
        ∧ t.metrics.successful_requests ≤ (applyEvent t e).metrics.successful_requests
        ∧ t.metrics.failed_requests ≤ (applyEvent t e).metrics.failed_requests
        ∧ t.metrics.blocked_requests ≤ (applyEvent t e).metrics.blocked_requests)
    ∧ get_success_rate (applyEvents (initBaseCrawler name layer) es)
        = (if countSuccess es + countFailure es = 0 then 0
           else ((countSuccess es : ℚ) / ((countSuccess es : ℚ) + (countFailure es : ℚ)))
             * 100) := by
  have h := applyEvents_counters es (initBaseCrawler name layer)
  have htot : (applyEvents (initBaseCrawler name layer) es).metrics.total_requests
      = countSuccess es + countFailure es := by
    rw [h.1]; simp [initBaseCrawler]
  have hs : (applyEvents (initBaseCrawler name layer) es).metrics.successful_requests
      = countSuccess es := by
    rw [h.2.1]; simp [initBaseCrawler]
  have hfa : (applyEvents (initBaseCrawler name layer) es).metrics.failed_requests
      = countFailure es := by
    rw [h.2.2]; simp [initBaseCrawler]
  refine ⟨by rw [htot, hs, hfa], hs, hfa, ?_, ?_⟩
  · intro t e
    cases e with
    | success rt => exact ⟨Nat.le_succ _, Nat.le_succ _, le_refl _, le_refl _⟩
    | failure b now =>
      have hf := record_failure_metrics t b now
      refine ⟨?_, ?_, ?_, ?_⟩ <;>
        simp only [applyEvent, hf.1, hf.2.1, hf.2.2.1, hf.2.2.2]
      · exact Nat.le_succ _
      · exact le_refl _
      · exact Nat.le_succ _
      · exact Nat.le_add_right _ _
  · rw [get_success_rate, htot, hs]
    by_cases hz : countSuccess es + countFailure es = 0
    · simp [hz]
    · rw [if_neg hz, if_neg hz]
      push_cast
      ring

/-- Counterexample to C6 as stated: after one successful request the
computed success rate is 100, not `successful/total = 1` — the code
reports a percentage, not the bare ratio the claim describes. -/
theorem claim_success_rate_counterexample :
    get_success_rate (record_success (initBaseCrawler "HTTPX" CrawlerLayer.HTTPX) 1) = 100
    ∧ ((record_success (initBaseCrawler "HTTPX" CrawlerLayer.HTTPX) 1).metrics.successful_requests : ℚ)
        / ((record_success (initBaseCrawler "HTTPX" CrawlerLayer.HTTPX) 1).metrics.total_requests : ℚ)
      = 1
    ∧ (100 : ℚ) ≠ 1 := by
  refine ⟨?_, ?_, by norm_num⟩ <;>
    norm_num [get_success_rate, record_success, initBaseCrawler]

/-- The cleanup loop invokes every cleanup, accumulating names in
order, whatever each cleanup returns. -/
theorem cleanupFoldAux (l : List CleanupCrawler) :
    ∀ acc : List String × List String,
      (l.foldl
        (fun acc c =>
          match c.cleanupResult with
          | Except.ok _ => (acc.1 ++ [c.name], acc.2)
          | Except.error e => (acc.1 ++ [c.name], acc.2 ++ [c.name ++ ": " ++ e]))
        acc).1
      = acc.1 ++ l.map CleanupCrawler.name := by
  induction l with
  | nil => intro acc; simp
  | cons c rest ih =>
    intro acc
    rw [List.foldl_cons, ih]
    cases h : c.cleanupResult <;> simp [h]

/-- `cleanup_all` invokes `cleanup()` on every crawler, in order. -/
theorem cleanup_all_names (l : List CleanupCrawler) :
    (cleanup_all l).1 = l.map CleanupCrawler.name := by
  simpa [cleanup_all] using cleanupFoldAux l ([], [])

/-- Claim C3: whether the phases complete normally or raise, every
backend of the run has `cleanup()` invoked exactly once by run end
(the invocation log is exactly the crawler-name list, and under the
distinct names of the three layers each name appears once), and the
cleanup behaviour — including a raising `cleanup()` — never changes the
primary result of the run. -/
theorem claim_run_cleanup_guarantee
    (phases : Except String (List BRPatent))
    (crawlers altCrawlers : List CleanupCrawler)
    (hnodup : (crawlers.map CleanupCrawler.name).Nodup) :
    (searchRun phases crawlers).2 = crawlers.map CleanupCrawler.name
    ∧ (∀ n ∈ crawlers.map CleanupCrawler.name,
        ((searchRun phases crawlers).2).count n = 1)
    ∧ (searchRun phases crawlers).1 = (searchRun phases altCrawlers).1 := by
  have hlog : (searchRun phases crawlers).2 = crawlers.map CleanupCrawler.name := by
    simpa [searchRun] using cleanup_all_names crawlers
  refine ⟨hlog, ?_, rfl⟩
  intro n hn
  rw [hlog]
  exact List.count_eq_one_of_mem hnodup hn

/-- Witness for C3: the expansion phase raises, the Playwright cleanup
itself raises, and still every crawler is cleaned exactly once with the
run result unchanged. -/
theorem claim_run_cleanup_guarantee_witness :
    (cleanupCrawlersOneRaises.map CleanupCrawler.name).Nodup
    ∧ ((searchRun (Except.error "expansion raised") cleanupCrawlersOneRaises).2
          = cleanupCrawlersOneRaises.map CleanupCrawler.name
      ∧ (∀ n ∈ cleanupCrawlersOneRaises.map CleanupCrawler.name,
          ((searchRun (Except.error "expansion raised") cleanupCrawlersOneRaises).2).count n
            = 1)
      ∧ (searchRun (Except.error "expansion raised") cleanupCrawlersOneRaises).1
          = (searchRun (Except.error "expansion raised") cleanupCrawlersAllOk).1) :=
  ⟨by decide,
    claim_run_cleanup_guarantee (Except.error "expansion raised")
      cleanupCrawlersOneRaises cleanupCrawlersAllOk (by decide)⟩

/-- The fallback walk returns what the first-success-wins contract
prescribes: the result of the earliest available crawler with a
non-raising, non-empty search result, and `([], "none")` otherwise. -/
theorem searchWoGo_fst (crawlers : CrawlerLayer → CrawlerBehavior) (q : String)
    (chain : List CrawlerLayer) :
    ∀ mc : ManagerCounters,
      (searchWoGo crawlers q chain mc).1
        = (firstAvailableNonEmpty crawlers q chain).getD ([], "none") := by
  induction chain with
  | nil => intro mc; rfl
  | cons layer rest ih =>
    intro mc
    cases ha : (crawlers layer).available with
    | false =>
      simp only [searchWoGo, firstAvailableNonEmpty, ha]
      exact ih mc
    | true =>
      simp only [searchWoGo, firstAvailableNonEmpty, ha]
      cases hs : (crawlers layer).search q with
      | error e => simpa [hs] using ih _
      | ok wo_numbers =>
        cases he : wo_numbers.isEmpty with
        | true => simpa [hs, he] using ih _
        | false => simp [hs, he]

/-- The invocation log of the fallback walk is an in-order sublist of
the names of the available crawlers of the chain: skipped (unavailable)
crawlers are never invoked and order follows the strategy. -/
theorem searchWoGo_attempted_sublist (crawlers : CrawlerLayer → CrawlerBehavior)
    (q : String) (chain : List CrawlerLayer) :
    ∀ mc : ManagerCounters,
      (searchWoGo crawlers q chain mc).2.1.Sublist
        ((chain.filter fun l => (crawlers l).available).map fun l => (crawlers l).name) := by
  induction chain with
  | nil => intro mc; simp [searchWoGo]
  | cons layer rest ih =>
    intro mc
    cases ha : (crawlers layer).available with
    | false =>
      simpa [searchWoGo, ha] using ih mc
    | true =>
      cases hs : (crawlers layer).search q with
      | error e =>
        simp [searchWoGo, hs, ha]
        exact ih _
      | ok wo_numbers =>
        cases he : wo_numbers.isEmpty with
        | true =>
          simp [searchWoGo, hs, he, ha]
          exact ih _
        | false =>
          simp [searchWoGo, hs, he, ha]

/-- Helper: consing onto a list does not change a defined last element. -/
theorem getLast?_cons_of_some {α : Type} (a : α) {l : List α} {x : α}
    (h : l.getLast? = some x) : (a :: l).getLast? = some x := by
  cases l with
  | nil => simp at h
  | cons b t => simpa [List.getLast?_cons_cons] using h

/-- When some crawler wins, the winner is the last crawler invoked: no
later backend of the chain is attempted after the first success. -/
theorem searchWoGo_attempted_last (crawlers : CrawlerLayer → CrawlerBehavior)
    (q : String) (chain : List CrawlerLayer) :
    ∀ mc : ManagerCounters, ∀ p : List String × String,
      firstAvailableNonEmpty crawlers q chain = some p →
      (searchWoGo crawlers q chain mc).2.1.getLast? = some p.2 := by
  induction chain with
  | nil => intro mc p h; simp [firstAvailableNonEmpty] at h
  | cons layer rest ih =>
    intro mc p h
    cases ha : (crawlers layer).available with
    | false =>
      rw [firstAvailableNonEmpty] at h
      simp only [ha] at h
      simp only [searchWoGo, ha]
      exact ih mc p h
    | true =>
      rw [firstAvailableNonEmpty] at h
      simp only [ha] at h
      simp only [searchWoGo, ha]
      cases hs : (crawlers layer).search q with
      | error e =>
        simp only [hs] at h
        simp only [hs]
        simpa using getLast?_cons_of_some _ (ih _ p h)
      | ok wo_numbers =>
        cases he : wo_numbers.isEmpty with
        | true =>
          simp only [hs, he] at h
          simp only [hs, he]
          simpa using getLast?_cons_of_some _ (ih _ p h)
        | false =>
          simp only [hs, he] at h
          simp only [hs, he]
          simp at h
          subst h
          simp

/-- The detail-fetch fallback walk likewise returns what the
first-success-wins contract prescribes. -/
theorem getDetailsGo_fst (crawlers : CrawlerLayer → CrawlerBehavior) (wo : String)
    (chain : List CrawlerLayer) :
    ∀ mc : ManagerCounters,
      (getDetailsGo crawlers wo chain mc).1
        = (firstAvailableTruthyDetails crawlers wo chain).getD (none, "none") := by
  induction chain with
  | nil => intro mc; rfl
  | cons layer rest ih =>
    intro mc
    cases ha : (crawlers layer).available with
    | false =>
      simp only [getDetailsGo, firstAvailableTruthyDetails, ha]
      exact ih mc
    | true =>
      simp only [getDetailsGo, firstAvailableTruthyDetails, ha]
      cases hs : (crawlers layer).details wo with
      | error e => simpa [hs] using ih _
      | ok details =>
        cases ht : detailsTruthy details with
        | false => simpa [hs, ht] using ih _
        | true => simp [hs, ht]

/-- The family-expansion fallback walk likewise returns what the
first-success-wins contract prescribes. -/
theorem getBrGo_fst (crawlers : CrawlerLayer → CrawlerBehavior) (wo : String)
    (chain : List CrawlerLayer) :
    ∀ mc : ManagerCounters,
      (getBrGo crawlers wo chain mc).1
        = (firstAvailableNonEmptyBr crawlers wo chain).getD ([], "none") := by
  induction chain with
  | nil => intro mc; rfl
  | cons layer rest ih =>
    intro mc
    cases ha : (crawlers layer).available with
    | false =>
      simp only [getBrGo, firstAvailableNonEmptyBr, ha]
      exact ih mc
    | true =>
      simp only [getBrGo, firstAvailableNonEmptyBr, ha]
      cases hs : (crawlers layer).brPatents wo with
      | error e => simpa [hs] using ih _
      | ok br_patents =>
        cases he : br_patents.isEmpty with
        | true => simpa [hs, he] using ih _
        | false => simp [hs, he]

/-- Claim C2: for each of the manager operations the fallback executor
tries backends strictly in strategy order, skips backends whose circuit
is open, treats a raised exception or an empty result as
continue-to-the-next-backend without propagating, returns at the first
backend with a non-empty result — which is then the last one invoked —
and invokes each backend at most once per call; in the scenario
[A raises, B returns empty, C returns [x1, x2]] it returns
([x1, x2], "C") with A, B, C each attempted exactly once. -/
theorem claim_fallback_short_circuit
    (crawlers : CrawlerLayer → CrawlerBehavior) (q wo woBr : String)
    (chain : List CrawlerLayer) (mc : ManagerCounters)
    (hnames : ((chain.filter fun l => (crawlers l).available).map
        fun l => (crawlers l).name).Nodup) :
    (searchWoGo crawlers q chain mc).1
      = (firstAvailableNonEmpty crawlers q chain).getD ([], "none")
    ∧ (getDetailsGo crawlers wo chain mc).1
      = (firstAvailableTruthyDetails crawlers wo chain).getD (none, "none")
    ∧ (getBrGo crawlers woBr chain mc).1
      = (firstAvailableNonEmptyBr crawlers woBr chain).getD ([], "none")
    ∧ (searchWoGo crawlers q chain mc).2.1.Sublist
        ((chain.filter fun l => (crawlers l).available).map fun l => (crawlers l).name)
    ∧ (∀ n : String, (searchWoGo crawlers q chain mc).2.1.count n ≤ 1)
    ∧ (∀ p : List String × String,
        firstAvailableNonEmpty crawlers q chain = some p →
        (searchWoGo crawlers q chain mc).2.1.getLast? = some p.2)
    ∧ searchWoGo chainABC q
        [CrawlerLayer.PLAYWRIGHT, CrawlerLayer.HTTPX, CrawlerLayer.SELENIUM]
        initManagerCounters
      = ((["x1", "x2"], "C"), ["A", "B", "C"],
          { total_requests := 3
            total_successes := 1
            total_failures := 0
            layer_usage := [("A", 1), ("B", 1), ("C", 1)]
            layer_successes := [("C", 1)] }) := by
  refine ⟨searchWoGo_fst crawlers q chain mc, getDetailsGo_fst crawlers wo chain mc,
    getBrGo_fst crawlers woBr chain mc, searchWoGo_attempted_sublist crawlers q chain mc,
    ?_, searchWoGo_attempted_last crawlers q chain mc, by rfl⟩
  intro n
  have hnd : (searchWoGo crawlers q chain mc).2.1.Nodup :=
    (searchWoGo_attempted_sublist crawlers q chain mc).nodup hnames
  exact List.nodup_iff_count_le_one.mp hnd n

/-- Witness for C2 on the spec scenario chain. -/
theorem claim_fallback_short_circuit_witness :
    ((([CrawlerLayer.PLAYWRIGHT, CrawlerLayer.HTTPX, CrawlerLayer.SELENIUM].filter
        fun l => (chainABC l).available).map fun l => (chainABC l).name).Nodup)
    ∧ ((searchWoGo chainABC "darolutamide"
          [CrawlerLayer.PLAYWRIGHT, CrawlerLayer.HTTPX, CrawlerLayer.SELENIUM]
          initManagerCounters).1
        = (firstAvailableNonEmpty chainABC "darolutamide"
            [CrawlerLayer.PLAYWRIGHT, CrawlerLayer.HTTPX, CrawlerLayer.SELENIUM]).getD
            ([], "none")
      ∧ (getDetailsGo chainABC "WO1"
          [CrawlerLayer.PLAYWRIGHT, CrawlerLayer.HTTPX, CrawlerLayer.SELENIUM]
          initManagerCounters).1
        = (firstAvailableTruthyDetails chainABC "WO1"
            [CrawlerLayer.PLAYWRIGHT, CrawlerLayer.HTTPX, CrawlerLayer.SELENIUM]).getD
            (none, "none")
      ∧ (getBrGo chainABC "WO2"
          [CrawlerLayer.PLAYWRIGHT, CrawlerLayer.HTTPX, CrawlerLayer.SELENIUM]
          initManagerCounters).1
        = (firstAvailableNonEmptyBr chainABC "WO2"
            [CrawlerLayer.PLAYWRIGHT, CrawlerLayer.HTTPX, CrawlerLayer.SELENIUM]).getD
            ([], "none")
      ∧ (searchWoGo chainABC "darolutamide"
          [CrawlerLayer.PLAYWRIGHT, CrawlerLayer.HTTPX, CrawlerLayer.SELENIUM]
          initManagerCounters).2.1.Sublist
          (([CrawlerLayer.PLAYWRIGHT, CrawlerLayer.HTTPX, CrawlerLayer.SELENIUM].filter
              fun l => (chainABC l).available).map fun l => (chainABC l).name)
      ∧ (∀ n : String,
          (searchWoGo chainABC "darolutamide"
            [CrawlerLayer.PLAYWRIGHT, CrawlerLayer.HTTPX, CrawlerLayer.SELENIUM]
            initManagerCounters).2.1.count n ≤ 1)
      ∧ (∀ p : List String × String,
          firstAvailableNonEmpty chainABC "darolutamide"
            [CrawlerLayer.PLAYWRIGHT, CrawlerLayer.HTTPX, CrawlerLayer.SELENIUM] = some p →
          (searchWoGo chainABC "darolutamide"
            [CrawlerLayer.PLAYWRIGHT, CrawlerLayer.HTTPX, CrawlerLayer.SELENIUM]
            initManagerCounters).2.1.getLast? = some p.2)
      ∧ searchWoGo chainABC "darolutamide"
          [CrawlerLayer.PLAYWRIGHT, CrawlerLayer.HTTPX, CrawlerLayer.SELENIUM]
          initManagerCounters
        = ((["x1", "x2"], "C"), ["A", "B", "C"],
            { total_requests := 3
              total_successes := 1
              total_failures := 0
              layer_usage := [("A", 1), ("B", 1), ("C", 1)]
              layer_successes := [("C", 1)] })) :=
  ⟨by decide,
    claim_fallback_short_circuit chainABC "darolutamide" "WO1" "WO2"
      [CrawlerLayer.PLAYWRIGHT, CrawlerLayer.HTTPX, CrawlerLayer.SELENIUM]
      initManagerCounters (by decide)⟩

/-- When every backend of the chain is unavailable or yields nothing,
the WO search falls through to `([], "none")` and increments the
manager failure counter. -/
theorem searchWoGo_all_nothing (crawlers : CrawlerLayer → CrawlerBehavior)
    (q : String) :
    ∀ (chain : List CrawlerLayer) (mc : ManagerCounters),
      (∀ l ∈ chain,
        (crawlers l).available = true → searchYieldsNothing (crawlers l) q = true) →
      (searchWoGo crawlers q chain mc).1 = ([], "none")
      ∧ (searchWoGo crawlers q chain mc).2.2.total_failures = mc.total_failures + 1 := by
  intro chain
  induction chain with
  | nil => intro mc _; exact ⟨rfl, rfl⟩
  | cons layer rest ih =>
    intro mc h
    have hrest : ∀ l ∈ rest,
        (crawlers l).available = true → searchYieldsNothing (crawlers l) q = true :=
      fun l hl => h l (List.mem_cons_of_mem _ hl)
    cases ha : (crawlers layer).available with
    | false => simpa [searchWoGo, ha] using ih mc hrest
    | true =>
      have hn := h layer (List.mem_cons_self _ _) ha
      cases hs : (crawlers layer).search q with
      | error e => simpa [searchWoGo, ha, hs] using ih _ hrest
      | ok wo_numbers =>
        simp only [searchYieldsNothing, hs] at hn
        simpa [searchWoGo, ha, hs, hn] using ih _ hrest

/-- The detail-fetch fallback never touches the manager failure
counter, in any branch. -/
theorem getDetailsGo_failures (crawlers : CrawlerLayer → CrawlerBehavior)
    (wo : String) :
    ∀ (chain : List CrawlerLayer) (mc : ManagerCounters),
      (getDetailsGo crawlers wo chain mc).2.2.total_failures = mc.total_failures := by
  intro chain
  induction chain with
  | nil => intro mc; rfl
  | cons layer rest ih =>
    intro mc
    cases ha : (crawlers layer).available with
    | false => simpa [getDetailsGo, ha] using ih mc
    | true =>
      cases hs : (crawlers layer).details wo with
      | error e => simpa [getDetailsGo, ha, hs] using ih _
      | ok details =>
        cases ht : detailsTruthy details with
        | true => simp [getDetailsGo, ha, hs, ht]
        | false => simpa [getDetailsGo, ha, hs, ht] using ih _

/-- When every backend of the chain is unavailable or yields nothing,
the detail fetch falls through to `(None, "none")`. -/
theorem getDetailsGo_all_nothing (crawlers : CrawlerLayer → CrawlerBehavior)
    (wo : String) :
    ∀ (chain : List CrawlerLayer) (mc : ManagerCounters),
      (∀ l ∈ chain,
        (crawlers l).available = true → detailsYieldNothing (crawlers l) wo = true) →
      (getDetailsGo crawlers wo chain mc).1 = (none, "none") := by
  intro chain
  induction chain with
  | nil => intro mc _; rfl
  | cons layer rest ih =>
    intro mc h
    have hrest : ∀ l ∈ rest,
        (crawlers l).available = true → detailsYieldNothing (crawlers l) wo = true :=
      fun l hl => h l (List.mem_cons_of_mem _ hl)
    cases ha : (crawlers layer).available with
    | false => simpa [getDetailsGo, ha] using ih mc hrest
    | true =>
      have hn := h layer (List.mem_cons_self _ _) ha
      cases hs : (crawlers layer).details wo with
      | error e => simpa [getDetailsGo, ha, hs] using ih _ hrest
      | ok details =>
        simp only [detailsYieldNothing, hs, Bool.not_eq_true'] at hn
        simpa [getDetailsGo, ha, hs, hn] using ih _ hrest

/-- The family-expansion fallback never touches the manager failure
counter, in any branch. -/
theorem getBrGo_failures (crawlers : CrawlerLayer → CrawlerBehavior)
    (wo : String) :
    ∀ (chain : List CrawlerLayer) (mc : ManagerCounters),
      (getBrGo crawlers wo chain mc).2.2.total_failures = mc.total_failures := by
  intro chain
  induction chain with
  | nil => intro mc; rfl
  | cons layer rest ih =>
    intro mc
    cases ha : (crawlers layer).available with
    | false => simpa [getBrGo, ha] using ih mc
    | true =>
      cases hs : (crawlers layer).brPatents wo with
      | error e => simpa [getBrGo, ha, hs] using ih _
      | ok br_patents =>
        cases he : br_patents.isEmpty with
        | true => simpa [getBrGo, ha, hs, he] using ih _
        | false => simp [getBrGo, ha, hs, he]

/-- When every backend of the chain is unavailable or yields nothing,
the family expansion falls through to `([], "none")`. -/
theorem getBrGo_all_nothing (crawlers : CrawlerLayer → CrawlerBehavior)
    (wo : String) :
    ∀ (chain : List CrawlerLayer) (mc : ManagerCounters),
      (∀ l ∈ chain,
        (crawlers l).available = true → brYieldsNothing (crawlers l) wo = true) →
      (getBrGo crawlers wo chain mc).1 = ([], "none") := by
  intro chain
  induction chain with
  | nil => intro mc _; rfl
  | cons layer rest ih =>
    intro mc h
    have hrest : ∀ l ∈ rest,
        (crawlers l).available = true → brYieldsNothing (crawlers l) wo = true :=
      fun l hl => h l (List.mem_cons_of_mem _ hl)
    cases ha : (crawlers layer).available with
    | false => simpa [getBrGo, ha] using ih mc hrest
    | true =>
      have hn := h layer (List.mem_cons_self _ _) ha
      cases hs : (crawlers layer).brPatents wo with
      | error e => simpa [getBrGo, ha, hs] using ih _ hrest
      | ok br_patents =>
        simp only [brYieldsNothing, hs] at hn
        simpa [getBrGo, ha, hs, hn] using ih _ hrest

/-- Claim C7 (amended): when every backend in the chain is skipped as
unavailable or yields nothing, each of the three fallback operations
returns the empty result paired with "none" and raises nothing (the
embedded operations are total functions); the identifier search
additionally increments the manager failure counter, while the detail
fetch and the family expansion leave it unchanged. -/
theorem claim_all_backends_nothing (crawlers : CrawlerLayer → CrawlerBehavior)
    (q wo woBr : String) (target : TargetSite) (mc : ManagerCounters)
    (hs : ∀ l ∈ strategies target,
      (crawlers l).available = true → searchYieldsNothing (crawlers l) q = true)
    (hd : ∀ l ∈ strategies target,
      (crawlers l).available = true → detailsYieldNothing (crawlers l) wo = true)
    (hb : ∀ l ∈ strategies target,
      (crawlers l).available = true → brYieldsNothing (crawlers l) woBr = true) :
    (search_wo_numbers crawlers q target mc).1 = ([], "none")
    ∧ (search_wo_numbers crawlers q target mc).2.2.total_failures = mc.total_failures + 1
    ∧ (get_patent_details crawlers wo target mc).1 = (none, "none")
    ∧ (get_patent_details crawlers wo target mc).2.2.total_failures = mc.total_failures
    ∧ (get_br_patents_from_wo crawlers woBr target mc).1 = ([], "none")
    ∧ (get_br_patents_from_wo crawlers woBr target mc).2.2.total_failures
        = mc.total_failures := by
  have h1 := searchWoGo_all_nothing crawlers q (strategies target) mc hs
  exact ⟨h1.1, h1.2,
    getDetailsGo_all_nothing crawlers wo (strategies target) mc hd,
    getDetailsGo_failures crawlers wo (strategies target) mc,
    getBrGo_all_nothing crawlers woBr (strategies target) mc hb,
    getBrGo_failures crawlers woBr (strategies target) mc⟩

/-- Witness for C7 on the chain with every circuit open. -/
theorem claim_all_backends_nothing_witness :
    (∀ l ∈ strategies TargetSite.GOOGLE_PATENTS,
      (chainAllDown l).available = true
        → searchYieldsNothing (chainAllDown l) "q" = true)
    ∧ ((search_wo_numbers chainAllDown "q" TargetSite.GOOGLE_PATENTS
          initManagerCounters).1 = ([], "none")
      ∧ (search_wo_numbers chainAllDown "q" TargetSite.GOOGLE_PATENTS
          initManagerCounters).2.2.total_failures
          = initManagerCounters.total_failures + 1
      ∧ (get_patent_details chainAllDown "WO1" TargetSite.GOOGLE_PATENTS
          initManagerCounters).1 = (none, "none")
      ∧ (get_patent_details chainAllDown "WO1" TargetSite.GOOGLE_PATENTS
          initManagerCounters).2.2.total_failures = initManagerCounters.total_failures
      ∧ (get_br_patents_from_wo chainAllDown "WO2" TargetSite.GOOGLE_PATENTS
          initManagerCounters).1 = ([], "none")
      ∧ (get_br_patents_from_wo chainAllDown "WO2" TargetSite.GOOGLE_PATENTS
          initManagerCounters).2.2.total_failures
          = initManagerCounters.total_failures) :=
  ⟨by decide,
    claim_all_backends_nothing chainAllDown "q" "WO1" "WO2"
      TargetSite.GOOGLE_PATENTS initManagerCounters
      (by decide) (by decide) (by decide)⟩

/-- Counterexample to C7 as stated: with every layer skipped, the
detail fetch returns `(None, "none")` but leaves the manager counters —
including `total_failures` — entirely unchanged, so only the identifier
search increments the failure counter, not all three operations. -/
theorem claim_details_failure_counter_counterexample :
    get_patent_details chainAllDown "WO2011140324" TargetSite.GOOGLE_PATENTS
        initManagerCounters
      = ((none, "none"), [], initManagerCounters)
    ∧ initManagerCounters.total_failures = 0 :=
  ⟨rfl, rfl⟩

/-- The `(wo_numbers, layer_used)` pair returned by a fallback pass does
not depend on the manager counters threaded through it. -/
theorem search_wo_numbers_counters_irrelevant
    (crawlers : CrawlerLayer → CrawlerBehavior) (q : String) (target : TargetSite)
    (mc mcAlt : ManagerCounters) :
    (search_wo_numbers crawlers q target mc).1
      = (search_wo_numbers crawlers q target mcAlt).1 := by
  rw [search_wo_numbers, search_wo_numbers, searchWoGo_fst, searchWoGo_fst]

/-- Claim C5 (amended): with the deterministic per-call behaviour the
embedding fixes (each crawler returns the same result on every call with
the same query), the multi-query search over [q, q, q] returns the same
deduplicated identifier list as over [q]; for every query list the
returned list is sorted and has no duplicate identifiers under exact
string equality. -/
theorem claim_multi_query_dedup_idempotent
    (crawlers : CrawlerLayer → CrawlerBehavior) (q : String)
    (queries : List String) (target : TargetSite) (mc : ManagerCounters) :
    (search_wo_numbers_multi_query crawlers [q, q, q] target mc).1
      = (search_wo_numbers_multi_query crawlers [q] target mc).1
    ∧ (search_wo_numbers_multi_query crawlers queries target mc).1.Sorted (· ≤ ·)
    ∧ (search_wo_numbers_multi_query crawlers queries target mc).1.Nodup := by
  have key : ∀ mcAlt : ManagerCounters,
      (search_wo_numbers crawlers q target mcAlt).1.1
        = (search_wo_numbers crawlers q target mc).1.1 :=
    fun mcAlt =>
      congrArg Prod.fst (search_wo_numbers_counters_irrelevant crawlers q target mcAlt mc)
  refine ⟨?_, Finset.sort_sorted _ _, Finset.sort_nodup _ _⟩
  simp only [search_wo_numbers_multi_query, multiQueryGo, key]
  congr 1
  simp [Finset.union_self]

/-- Counterexample to C5 as stated: deduplication in the multi-query
search is a Python set of raw strings, not of normalised identifiers,
so two identifiers equal after normalisation (case-fold, strip spaces
and hyphens) but textually distinct both survive. -/
theorem claim_multi_query_normalized_dup_counterexample :
    (search_wo_numbers_multi_query chainNearDuplicates ["q"]
        TargetSite.GOOGLE_PATENTS initManagerCounters).1
      = ["WO-123", "WO123"]
    ∧ normalize_patent_number "WO-123" = normalize_patent_number "WO123"
    ∧ "WO-123" ≠ "WO123" := by
  have hlt : ("WO-123" : String) < "WO123" := String.lt_iff_toList_lt.mpr (by decide)
  have hacc : (multiQueryGo chainNearDuplicates TargetSite.GOOGLE_PATENTS ["q"] ∅ []
      initManagerCounters).1 = (["WO-123", "WO123"] : List String).toFinset := by
    simp [multiQueryGo, search_wo_numbers, searchWoGo, strategies, strategiesTable,
      chainNearDuplicates, crawlerNearDuplicates]
  refine ⟨?_, by decide, by decide⟩
  show (multiQueryGo chainNearDuplicates TargetSite.GOOGLE_PATENTS ["q"] ∅ []
      initManagerCounters).1.sort (· ≤ ·) = ["WO-123", "WO123"]
  rw [hacc]
  have h : (["WO-123", "WO123"] : List String).toFinset
      = insert "WO-123" (insert "WO123" (∅ : Finset String)) := by simp
  rw [h, Finset.sort_insert]
  · rw [LawfulSingleton.insert_emptyc_eq, Finset.sort_singleton]
  · intro b hb
    simp at hb
    subst hb
    exact le_of_lt hlt
  · simp

/-- The merge keeps records in insertion order: its output is an
in-order sublist of the concatenated input. -/
theorem dedupGo_sublist :
    ∀ (l : List BRPatent) (seen : List String), (dedupGo l seen).Sublist l := by
  intro l
  induction l with
  | nil => intro seen; simp [dedupGo]
  | cons p rest ih =>
    intro seen
    rw [dedupGo]
    split
    · exact List.Sublist.cons _ (ih _)
    · exact List.Sublist.cons₂ _ (ih _)

/-- The merge output has pairwise distinct normalised numbers, none of
them already seen. -/
theorem dedupGo_norm_nodup :
    ∀ (l : List BRPatent) (seen : List String),
      (dedupGo l seen).Pairwise
        (fun p1 p2 => normalize_patent_number p1.number ≠ normalize_patent_number p2.number)
      ∧ ∀ p ∈ dedupGo l seen, normalize_patent_number p.number ∉ seen := by
  intro l
  induction l with
  | nil => intro seen; exact ⟨List.Pairwise.nil, by simp [dedupGo]⟩
  | cons p rest ih =>
    intro seen
    rw [dedupGo]
    split
    · next hmem =>
      refine ⟨(ih seen).1, (ih seen).2⟩
    · next hmem =>
      obtain ⟨hpw, hseen⟩ := ih (normalize_patent_number p.number :: seen)
      refine ⟨List.Pairwise.cons ?_ hpw, ?_⟩
      · intro q hq heq
        exact hseen q hq (heq ▸ List.mem_cons_self _ _)
      · intro q hq
        rcases List.mem_cons.mp hq with hq | hq
        · subst hq; exact hmem
        · intro hin
          exact hseen q hq (List.mem_cons_of_mem _ hin)

/-- No record is lost by the merge: every input number is represented
in the output, up to normalisation. -/
theorem dedupGo_complete :
    ∀ (l : List BRPatent) (seen : List String), ∀ p ∈ l,
      normalize_patent_number p.number ∈ seen
      ∨ ∃ q ∈ dedupGo l seen,
          normalize_patent_number q.number = normalize_patent_number p.number := by
  intro l
  induction l with
  | nil => intro seen p hp; simp at hp
  | cons r rest ih =>
    intro seen p hp
    rw [dedupGo]
    rcases List.mem_cons.mp hp with hp | hp
    · subst hp
      split
      · next hmem => exact Or.inl hmem
      · next hmem =>
        exact Or.inr ⟨p, List.mem_cons_self _ _, rfl⟩
    · split
      · next hmem => exact ih seen p hp
      · next hmem =>
        rcases ih (normalize_patent_number r.number :: seen) p hp with hin | ⟨q, hq, hqe⟩
        · rcases List.mem_cons.mp hin with hin | hin
          · exact Or.inr ⟨r, List.mem_cons_self _ _, hin.symm⟩
          · exact Or.inl hin
        · exact Or.inr ⟨q, List.mem_cons_of_mem _ hq, hqe⟩

/-- Bumping one key of a histogram dict adds one to that key and leaves
every other key alone. -/
theorem lookupCount_bumpCount (l : List (String × Nat)) (k kr : String) :
    lookupCount (bumpCount l k) kr
      = lookupCount l kr + (if kr = k then 1 else 0) := by
  induction l with
  | nil =>
    by_cases h : kr = k
    · subst h; simp [bumpCount, lookupCount, List.lookup]
    · have hb : (kr == k) = false := beq_eq_false_iff_ne.mpr h
      simp [bumpCount, lookupCount, List.lookup, hb, h]
  | cons e rest ih =>
    obtain ⟨a, n⟩ := e
    by_cases hak : a = k
    · subst hak
      by_cases h : kr = a
      · subst h; simp [bumpCount, lookupCount, List.lookup]
      · have hb : (kr == a) = false := beq_eq_false_iff_ne.mpr h
        simp [bumpCount, lookupCount, List.lookup, hb, h]
    · rw [bumpCount]
      simp only [if_neg hak]
      by_cases h : kr = a
      · subst h
        have hkk : ¬ kr = k := hak
        simp [lookupCount, List.lookup, hkk]
      · have hb : (kr == a) = false := beq_eq_false_iff_ne.mpr h
        simpa [lookupCount, List.lookup, hb] using ih

/-- The source histogram built by `_count_by_source` counts exactly the
records carrying each source tag. -/
theorem count_by_source_foldl (ps : List BRPatent) :
    ∀ (acc : List (String × Nat)) (src : String),
      lookupCount (ps.foldl (fun counts p => bumpCount counts p.source) acc) src
        = lookupCount acc src + (ps.filter (fun p => p.source == src)).length := by
  induction ps with
  | nil => intro acc src; simp
  | cons p rest ih =>
    intro acc src
    rw [List.foldl_cons, ih, lookupCount_bumpCount]
    by_cases h : p.source = src
    · have hb : (p.source == src) = true := beq_iff_eq.mpr h
      have hs : src = p.source := h.symm
      rw [List.filter_cons]
      simp [hb, hs]
      try omega
    · have hb : (p.source == src) = false := beq_eq_false_iff_ne.mpr h
      have hs : ¬ src = p.source := fun he => h he.symm
      rw [List.filter_cons]
      simp [hb, hs]
      try omega

/-- Claim C8 (amended): the merge phase keeps the concatenated
family-expansion and direct-search records in insertion order, dropping
a record exactly when its normalised number was already kept (first
occurrence wins, nothing is lost up to normalisation); the records the
pipeline builds carry a provenance/source tag but no relevance score,
and no score-based sorting occurs; summary counts group the final
records by source. -/
theorem claim_merge_phase_dedup (wo_br inpi_br : List BRPatent) :
    (deduplicate_br_patents wo_br inpi_br).Sublist (wo_br ++ inpi_br)
    ∧ (deduplicate_br_patents wo_br inpi_br).Pairwise
        (fun p1 p2 => normalize_patent_number p1.number ≠ normalize_patent_number p2.number)
    ∧ (∀ p ∈ wo_br ++ inpi_br, ∃ q ∈ deduplicate_br_patents wo_br inpi_br,
        normalize_patent_number q.number = normalize_patent_number p.number)
    ∧ (∀ br wo layer, (mkWoFamilyPatent br wo layer).score = none)
    ∧ (∀ num src, (mkInpiPatent num src).score = none)
    ∧ (∀ src, lookupCount (count_by_source (deduplicate_br_patents wo_br inpi_br)) src
        = ((deduplicate_br_patents wo_br inpi_br).filter
            (fun p => p.source == src)).length) := by
  refine ⟨dedupGo_sublist _ [], (dedupGo_norm_nodup _ []).1, ?_,
    fun _ _ _ => rfl, fun _ _ => rfl, ?_⟩
  · intro p hp
    rcases dedupGo_complete (wo_br ++ inpi_br) [] p hp with hin | h
    · simp at hin
    · exact h
  · intro src
    simpa [count_by_source, lookupCount, List.lookup] using
      count_by_source_foldl (deduplicate_br_patents wo_br inpi_br) [] src

/-- Counterexample to C8 as stated: the records the layered pipeline
builds carry no relevance score at all (no construction site sets one),
and the merge emits family-expansion records before direct-search
records purely by insertion order — there is no score to sort by. -/
theorem claim_merge_no_relevance_score_counterexample :
    ((deduplicate_br_patents
        [mkWoFamilyPatent "BR112013001234" "WO2011140324" "Playwright"]
        [mkInpiPatent "BR112015005678" "inpi_molecule"]).all
      (fun p => p.score.isSome)) = false
    ∧ deduplicate_br_patents
        [mkWoFamilyPatent "BR112013001234" "WO2011140324" "Playwright"]
        [mkInpiPatent "BR112015005678" "inpi_molecule"]
      = [mkWoFamilyPatent "BR112013001234" "WO2011140324" "Playwright",
          mkInpiPatent "BR112015005678" "inpi_molecule"] := by
  refine ⟨rfl, by decide⟩

end Pharmyrus
